import Mathlib

/-
Verification of the SOD (Sudden Oak Death) spread model, main.cpp.
The grid type (Img.h), calendar type (date.h) and the per-replica
random stream (Spore.h) are not part of src/, so those carriers are
modelled from the spec; every algorithm on them below is translated
from main.cpp.
-/

/-- Modelled from the spec: the repository's Img.h is not under src/.
A grid (Img) is a 2D raster of integer counts with a width, a height,
two resolution scalars and cell values addressed by (row, column);
arithmetic is elementwise (spec sections 3 and 4.1).  C++ stores the
counts as int, so cells carry Int. -/
structure Img where
  width : Nat
  height : Nat
  weRes : Int
  nsRes : Int
  cells : Nat → Nat → Int

/-- Default-constructed Img(), the value returned by the failed
dimension guard in main.cpp line 50. -/
def Img.empty : Img :=
  ⟨0, 0, 0, 0, fun _ _ => 0⟩

/-- Modelled from the spec: Img.h zero() resets every cell to 0 and
keeps the dimensions (spec section 4.1). -/
def Img.zero (a : Img) : Img :=
  { a with cells := fun _ _ => 0 }

/-- Modelled from the spec: Img.h elementwise addition. -/
def Img.add (a b : Img) : Img :=
  { a with cells := fun i j => a.cells i j + b.cells i j }

/-- Modelled from the spec: Img.h elementwise subtraction. -/
def Img.sub (a b : Img) : Img :=
  { a with cells := fun i j => a.cells i j - b.cells i j }

/-- Modelled from the spec: Img.h elementwise multiplication. -/
def Img.mul (a b : Img) : Img :=
  { a with cells := fun i j => a.cells i j * b.cells i j }

/-- Modelled from the spec: Img.h operator /= with an integer count;
C++ signed integer division truncates toward zero, which is Int.tdiv. -/
def Img.divS (a : Img) (n : Nat) : Img :=
  { a with cells := fun i j => Int.tdiv (a.cells i j) (n : Int) }

/-- Elementwise a = std::sqrt(a) on an integer grid, main.cpp lines 609
and 635: the double result is converted back to int, which for a
non-negative cell value v is the integer square root Nat.sqrt v (the
cells it is applied to are accumulated squares, hence non-negative). -/
def Img.sqrtEach (a : Img) : Img :=
  { a with cells := fun i j => (Nat.sqrt (a.cells i j).toNat : Int) }

/-- Embeds the dimension guard of the initialization function, main.cpp
lines 47-48, exactly as written there, including the slip: the second
comparison tests img2's height against itself instead of img1's. -/
def dimMismatch (img1 img2 : Img) : Bool :=
  decide (img1.width ≠ img2.width) || decide (img2.height ≠ img2.height)

/-- Embeds the initialization function of main.cpp lines 46-75 (named
initialize there): derives the initial infected canopy-host (UMCA) grid
from the canopy-host grid img1 and the initial infected oak grid img2.
On a detected dimension mismatch it reports and returns Img(). -/
def init_infected (img1 img2 : Img) : Img :=
  if dimMismatch img1 img2 then Img.empty
  else
    { width := img1.width, height := img1.height,
      weRes := img1.weRes, nsRes := img1.nsRes,
      cells := fun i j =>
        if img2.cells i j > 0 then
          if img1.cells i j > img2.cells i j then
            if img1.cells i j < img2.cells i j * 2 then img1.cells i j
            else img2.cells i j * 2
          else img1.cells i j
        else 0 }

/-- Modelled from the spec: the repository's date.h is not under src/.
A calendar date carries year, month and day; month() is the accessor
used for seasonality gating (spec sections 3 and 4.2). -/
structure Date where
  year : Int
  month : Int
  day : Int

/-- Modelled from the spec: date.h operator < is the total lexicographic
order on (year, month, day). -/
def Date.lt (a b : Date) : Bool :=
  decide (a.year < b.year ∨
    (a.year = b.year ∧ (a.month < b.month ∨
      (a.month = b.month ∧ a.day < b.day))))

/-- Embeds the queueing condition of the weekly loop, main.cpp lines
543-545: the current week is pushed onto unresolved_weeks when
dd_start < dd_end and, nested inside, when !ss || !(month > 9). -/
def pushWeek (ss : Bool) (dd_start dd_end : Date) : Bool :=
  if Date.lt dd_start dd_end then
    if (!ss) || (! decide (dd_start.month > 9)) then true else false
  else false

/-- Embeds the per-week weather resolution of main.cpp lines 573-576:
with no NetCDF source and a non-empty per-week list the code reads
weather_values[week] through the unchecked std::vector operator[]; the
out-of-range case (week at or past the length) is an out-of-bounds read
with no error path, modelled as none.  Otherwise the scalar
weather_value is used. -/
def weeklyWeather (hasNetcdf : Bool) (weather_values : List Int)
    (weather_value : Int) (week : Nat) : Option Int :=
  if (!hasNetcdf) && (! weather_values.isEmpty) then weather_values[week]?
  else some weather_value

/-- Embeds Rtype of Spore.h as used by main.cpp (values CAUCHY and
CAUCHY_MIX selected by radial_type_from_string, lines 103-112). -/
inductive Rtype where
  | CAUCHY : Rtype
  | CAUCHY_MIX : Rtype
  deriving DecidableEq

/-- Embeds the conditionally-required option checks of main.cpp lines
414-430: when radial_type is cauchy_mix, a missing scale_2 answer or a
missing gamma answer triggers G_fatal_error naming the missing option
(scale_2 is checked first).  Only presence of the answers matters to
the checks, so answers are kept as the raw option strings. -/
def validateMixture (rtype : Rtype) (scale_2_ans gamma_ans : Option String) :
    Except String Unit :=
  if rtype = Rtype.CAUCHY_MIX ∧ scale_2_ans = none then
    Except.error "The option scale_2 is required for radial_type=cauchy_mix"
  else if rtype = Rtype.CAUCHY_MIX ∧ gamma_ans = none then
    Except.error "The option gamma is required for radial_type=cauchy_mix"
  else Except.ok ()

/-- Setup-then-simulate skeleton of main: the mixture validation of
lines 414-430 runs during option processing, before the weekly
simulation loop starting at line 542, so a fatal error there produces
no simulation result at all. -/
def setupThenSimulate {α : Type} (rtype : Rtype)
    (scale_2_ans gamma_ans : Option String) (simulate : Unit → α) :
    Except String α :=
  match validateMixture rtype scale_2_ans gamma_ans with
  | Except.error e => Except.error e
  | Except.ok _ => Except.ok (simulate ())

/-- Embeds all_infected, main.cpp lines 140-150: scan every cell of the
susceptible-oak grid, clearing the flag whenever a positive count is
seen. -/
def all_infected (g : Img) : Bool :=
  (List.range g.height).foldl
    (fun acc j =>
      (List.range g.width).foldl
        (fun acc2 k => if g.cells j k > 0 then false else acc2) acc)
    true

/-- Early-exit behaviour of the weekly loop, main.cpp lines 542-551:
S_oaks_rast is assigned once at line 469 and never written afterwards,
so every iteration applies all_infected to that same grid; fuel bounds
the number of weekly iterations until the end date is reached.  The
result is the week index at which the loop breaks early, or none when
the loop runs out of weeks without the early break. -/
def earlyExitWeek (g : Img) : Nat → Nat → Option Nat
  | 0, _ => none
  | Nat.succ fuel, w =>
    if all_infected g then some w else earlyExitWeek g fuel (w + 1)

/-- Embeds the mean aggregation of main.cpp lines 619-623 (likewise
590-593): zero the accumulator grid, add every replica's infected-oak
grid, then divide by the number of runs with integer division. -/
def meanGrid (base : Img) (gs : List Img) (num_runs : Nat) : Img :=
  (gs.foldl Img.add base.zero).divS num_runs

/-- Embeds the standard-deviation aggregation of main.cpp lines 627-635
(likewise 601-609): start from a zero grid shaped like the mean grid,
accumulate (replica - mean) squared elementwise, divide by the number
of runs with integer division, then take the elementwise integer
square root. -/
def stddevGrid (meanG : Img) (gs : List Img) (num_runs : Nat) : Img :=
  ((gs.foldl (fun acc g => acc.add ((g.sub meanG).mul (g.sub meanG)))
      meanG.zero).divS num_runs).sqrtEach

/-- The per-cell sum of squared deviations accumulated by stddevGrid. -/
def sumSqDev (meanG : Img) (gs : List Img) (i j : Nat) : Int :=
  gs.foldl
    (fun a g =>
      a + (g.cells i j - meanG.cells i j) * (g.cells i j - meanG.cells i j))
    0

/-- The per-cell sum accumulated by meanGrid. -/
def sumCells (gs : List Img) (i j : Nat) : Int :=
  gs.foldl (fun a g => a + g.cells i j) 0

/-- Per-replica grid vectors of main.cpp lines 530-533 together with
the ensemble-level accumulator I_oaks_rast that the aggregation steps
reuse as the mean grid. -/
structure EnsembleState where
  sus_umca_rasts : List Img
  sus_oaks_rasts : List Img
  inf_umca_rasts : List Img
  inf_oaks_rasts : List Img
  I_oaks_rast : Img

/-- Embeds the aggregation of main.cpp lines 619-623 as a state update:
the accumulator I_oaks_rast is overwritten with the mean infected-oak
grid; the per-replica vectors are only read. -/
def aggregateMean (st : EnsembleState) (num_runs : Nat) : EnsembleState :=
  { st with I_oaks_rast := meanGrid st.I_oaks_rast st.inf_oaks_rasts num_runs }

/-- Embeds the stddev output step of main.cpp lines 627-636: a local
grid is computed from the replica grids and the mean grid and handed to
the raster writer; the ensemble state is returned unchanged next to it. -/
def aggregateStddev (st : EnsembleState) (num_runs : Nat) :
    EnsembleState × Img :=
  (st, stddevGrid st.I_oaks_rast st.inf_oaks_rasts num_runs)

/-- Embeds the replica construction loop of main.cpp lines 535-536:
each Sporulation is constructed with seed_value++, where seed_value is
an unsigned 32-bit counter, so it wraps modulo 2^32 between replicas. -/
def replicaSeeds : Nat → Nat → List Nat
  | 0, _ => []
  | Nat.succ n, s => s :: replicaSeeds n ((s + 1) % 4294967296)

/-- Phase of one loop iteration inside the parallel region of main.cpp
lines 568-585: the write to the shared weather variable (line 575) and
the per-replica grid update that reads it (lines 577-582). -/
inductive BatchPhase where
  | writeShared : BatchPhase
  | useShared : BatchPhase
  deriving DecidableEq

/-- State of the parallel batch in the per-week weather-list
configuration: weather_value is declared at main.cpp line 487, outside
the omp parallel for at line 568 and not made thread-private, so it is
one variable shared by every thread; grids are the per-replica grids,
each run touching only its own index. -/
structure BatchState (α : Type) where
  weather_value : Int
  grids : List α

/-- One atomic action of the parallel region, main.cpp lines 572-583,
executed by the thread of run r at queued week `week`.  The write phase
is line 575, weather_value = weather_values[week], a write to the
shared variable (taken when no NetCDF source is set and the weather
list is non-empty; indices stay in range here, the out-of-range case is
treated at weeklyWeather).  The use phase is the SporeGen and
SporeSpreadDisp calls at lines 577-582, which read the shared
weather_value and update only run r's own grid; the grid update itself
(Spore.h, not under src/) is abstracted as a step function of the
weather value that was read. -/
def batchStep {α : Type} (dflt : α) (weather_values : List Int)
    (step : Nat → Int → α → α) (st : BatchState α) :
    Nat × Nat × BatchPhase → BatchState α
  | (_, week, BatchPhase.writeShared) =>
      { st with weather_value := weather_values.getD week 0 }
  | (r, _, BatchPhase.useShared) =>
      { st with grids :=
          st.grids.set r (step r st.weather_value (st.grids.getD r dflt)) }

/-- Runs the parallel batch under a given interleaving (schedule) of
the threads' atomic actions. -/
def runBatchSched {α : Type} (dflt : α) (weather_values : List Int)
    (step : Nat → Int → α → α) (st : BatchState α)
    (sched : List (Nat × Nat × BatchPhase)) : BatchState α :=
  sched.foldl (batchStep dflt weather_values step) st

/-- The sequence of atomic actions run r executes, in program order:
for every queued week, first the shared write of line 575, then the
grid update of lines 577-582 (the inner for loop over
unresolved_weeks). -/
def runProgram (r : Nat) : List Nat → List (Nat × Nat × BatchPhase)
  | [] => []
  | w :: ws =>
    (r, w, BatchPhase.writeShared) :: (r, w, BatchPhase.useShared)
      :: runProgram r ws

/-- sched is an interleaving of the two runs' action sequences: a
permutation of their concatenation containing each sequence in order.
For sequences of pairwise distinct actions (distinct run indices) this
is exactly a thread interleaving. -/
def IsInterleaving (sched p0 p1 : List (Nat × Nat × BatchPhase)) : Prop :=
  sched.Perm (p0 ++ p1) ∧ p0.Sublist sched ∧ p1.Sublist sched

/-- The schedule of a sequential execution (nprocs=1): all of run 0's
actions, then all of run 1's. -/
def schedSeq : List (Nat × Nat × BatchPhase) :=
  runProgram 0 [0, 1] ++ runProgram 1 [0, 1]

/-- A racy two-thread schedule: run 0's shared write for week 1
overtakes run 1's write for week 0 before run 1 reads the shared
variable, so run 1's week-0 update sees week 1's weather value. -/
def schedRace : List (Nat × Nat × BatchPhase) :=
  [(0, 0, BatchPhase.writeShared), (0, 0, BatchPhase.useShared),
   (1, 0, BatchPhase.writeShared), (0, 1, BatchPhase.writeShared),
   (1, 0, BatchPhase.useShared), (0, 1, BatchPhase.useShared),
   (1, 1, BatchPhase.writeShared), (1, 1, BatchPhase.useShared)]

/-- Concrete 3 by 2 grid used to exhibit the dimension-guard slip. -/
def imgA : Img :=
  ⟨3, 2, 1, 1, fun _ _ => 4⟩

/-- Concrete 3 by 1 grid: same width as imgA, different height. -/
def imgB : Img :=
  ⟨3, 1, 1, 1, fun _ _ => 1⟩

/-- Concrete 1 by 1 grid holding 0. -/
def cexG0 : Img :=
  ⟨1, 1, 1, 1, fun _ _ => 0⟩

/-- Concrete 1 by 1 grid holding 1. -/
def cexG1 : Img :=
  ⟨1, 1, 1, 1, fun _ _ => 1⟩

/-- The code's own mean grid for the two replicas cexG0, cexG1. -/
def cexMean : Img :=
  meanGrid cexG0 [cexG0, cexG1] 2

/-- Concrete 1 by 1 grid holding 5, for the init_infected witness. -/
def wit1 : Img :=
  ⟨1, 1, 1, 1, fun _ _ => 5⟩

/-- Concrete 1 by 1 grid holding 2, for the init_infected witness. -/
def wit2 : Img :=
  ⟨1, 1, 1, 1, fun _ _ => 2⟩

-- Helper lemmas -------------------------------------------------------

-- Folding an if-positive-then-clear-flag scan equals the conjunction of
-- the flag with an all-quantifier over the scanned list.
theorem foldl_flag_eq_all (p : Nat → Prop) [DecidablePred p] :
    ∀ (l : List Nat) (acc : Bool),
      l.foldl (fun a k => if p k then false else a) acc
        = (acc && l.all fun k => ! decide (p k)) := by
  intro l
  induction l with
  | nil => intro acc; simp
  | cons x xs ih =>
    intro acc
    rw [List.foldl_cons, ih, List.all_cons]
    by_cases hx : p x
    · simp [hx]
    · simp [hx]

-- Folding Boolean conjunction equals all.
theorem foldl_and_eq_all (q : Nat → Bool) :
    ∀ (l : List Nat) (acc : Bool),
      l.foldl (fun a x => a && q x) acc = (acc && l.all q) := by
  intro l
  induction l with
  | nil => intro acc; simp
  | cons x xs ih =>
    intro acc
    simp [ih, Bool.and_assoc]

theorem all_infected_iff (g : Img) :
    all_infected g = true
      ↔ ∀ j, j < g.height → ∀ k, k < g.width → ¬ 0 < g.cells j k := by
  have hinner : ∀ (j : Nat) (acc : Bool),
      (List.range g.width).foldl
        (fun acc2 k => if g.cells j k > 0 then false else acc2) acc
        = (acc && (List.range g.width).all fun k => ! decide (g.cells j k > 0)) :=
    fun j acc => foldl_flag_eq_all (fun k => g.cells j k > 0) (List.range g.width) acc
  have h1 : all_infected g
      = ((List.range g.height).all fun j =>
          (List.range g.width).all fun k => ! decide (g.cells j k > 0)) := by
    unfold all_infected
    calc (List.range g.height).foldl
          (fun acc j => (List.range g.width).foldl
            (fun acc2 k => if g.cells j k > 0 then false else acc2) acc) true
        = (List.range g.height).foldl
            (fun acc j => acc &&
              ((List.range g.width).all fun k => ! decide (g.cells j k > 0))) true := by
          have hfun : (fun (acc : Bool) (j : Nat) =>
              (List.range g.width).foldl
                (fun acc2 k => if g.cells j k > 0 then false else acc2) acc)
              = fun (acc : Bool) (j : Nat) => acc &&
                  ((List.range g.width).all fun k => ! decide (g.cells j k > 0)) :=
            funext fun acc => funext fun j => hinner j acc
          rw [hfun]
      _ = ((List.range g.height).all fun j =>
            (List.range g.width).all fun k => ! decide (g.cells j k > 0)) := by
          rw [foldl_and_eq_all]
          simp
  rw [h1]
  simp [List.all_eq_true, List.mem_range]

-- If the grid has a positive cell, the loop never breaks early.
theorem earlyExitWeek_none (g : Img) (hg : all_infected g = false) :
    ∀ (fuel w : Nat), earlyExitWeek g fuel w = none := by
  intro fuel
  induction fuel with
  | zero => intro w; rfl
  | succ n ih =>
    intro w
    unfold earlyExitWeek
    rw [hg]
    simpa using ih (w + 1)

-- Shifting the start accumulator out of an additive fold.
theorem foldl_add_shift (f : Img → Int) :
    ∀ (gs : List Img) (a : Int),
      gs.foldl (fun acc g => acc + f g) a
        = a + gs.foldl (fun acc g => acc + f g) 0 := by
  intro gs
  induction gs with
  | nil => intro a; simp
  | cons g gs ih =>
    intro a
    rw [List.foldl_cons, List.foldl_cons, ih (a + f g), ih (0 + f g)]
    ring

-- Cell values of the mean-accumulation fold.
theorem mean_fold_cells (gs : List Img) (i j : Nat) :
    ∀ (acc : Img),
      (gs.foldl Img.add acc).cells i j = acc.cells i j + sumCells gs i j := by
  induction gs with
  | nil => intro acc; simp [sumCells]
  | cons g gs ih =>
    intro acc
    rw [List.foldl_cons, ih]
    unfold sumCells
    rw [List.foldl_cons, foldl_add_shift (fun g => g.cells i j) gs (0 + g.cells i j)]
    simp [Img.add]
    ring

-- Cell values of the squared-deviation fold.
theorem stddev_fold_cells (meanG : Img) (gs : List Img) (i j : Nat) :
    ∀ (acc : Img),
      (gs.foldl (fun acc g => acc.add ((g.sub meanG).mul (g.sub meanG))) acc).cells i j
        = acc.cells i j + sumSqDev meanG gs i j := by
  induction gs with
  | nil => intro acc; simp [sumSqDev]
  | cons g gs ih =>
    intro acc
    rw [List.foldl_cons, ih]
    unfold sumSqDev
    rw [List.foldl_cons,
      foldl_add_shift
        (fun g => (g.cells i j - meanG.cells i j) * (g.cells i j - meanG.cells i j))
        gs
        (0 + (g.cells i j - meanG.cells i j) * (g.cells i j - meanG.cells i j))]
    simp [Img.add, Img.sub, Img.mul]
    ring

-- The squared-deviation sum is non-negative.
theorem sumSqDev_nonneg (meanG : Img) (gs : List Img) (i j : Nat) :
    0 ≤ sumSqDev meanG gs i j := by
  induction gs with
  | nil => simp [sumSqDev]
  | cons g gs ih =>
    unfold sumSqDev
    rw [List.foldl_cons,
      foldl_add_shift
        (fun g => (g.cells i j - meanG.cells i j) * (g.cells i j - meanG.cells i j))
        gs]
    have h := mul_self_nonneg (g.cells i j - meanG.cells i j)
    unfold sumSqDev at ih
    omega

-- Closed form for a stddev grid cell.
theorem stddevGrid_cells (meanG : Img) (gs : List Img) (n : Nat) (i j : Nat) :
    (stddevGrid meanG gs n).cells i j
      = (Nat.sqrt ((Int.tdiv (sumSqDev meanG gs i j) (n : Int)).toNat) : Int) := by
  unfold stddevGrid Img.divS Img.sqrtEach
  simp only []
  rw [stddev_fold_cells]
  simp [Img.zero]

-- Closed form for a mean grid cell.
theorem meanGrid_cells (base : Img) (gs : List Img) (n : Nat) (i j : Nat) :
    (meanGrid base gs n).cells i j
      = Int.tdiv (sumCells gs i j) (n : Int) := by
  unfold meanGrid Img.divS
  simp only []
  rw [mean_fold_cells]
  simp [Img.zero]

-- Sums over replicated grids.
theorem sumCells_replicate (g : Img) (i j : Nat) :
    ∀ (n : Nat), sumCells (List.replicate n g) i j = (n : Int) * g.cells i j := by
  intro n
  induction n with
  | zero => simp [sumCells]
  | succ n ih =>
    unfold sumCells
    rw [List.replicate_succ, List.foldl_cons,
      foldl_add_shift (fun g => g.cells i j) (List.replicate n g)]
    unfold sumCells at ih
    rw [ih]
    push_cast
    ring

theorem sumSqDev_replicate (meanG g : Img) (i j : Nat) :
    ∀ (n : Nat),
      sumSqDev meanG (List.replicate n g) i j
        = (n : Int) *
            ((g.cells i j - meanG.cells i j) * (g.cells i j - meanG.cells i j)) := by
  intro n
  induction n with
  | zero => simp [sumSqDev]
  | succ n ih =>
    unfold sumSqDev
    rw [List.replicate_succ, List.foldl_cons,
      foldl_add_shift
        (fun g => (g.cells i j - meanG.cells i j) * (g.cells i j - meanG.cells i j))
        (List.replicate n g)]
    unfold sumSqDev at ih
    rw [ih]
    push_cast
    ring

-- Closed form of the replica seed list.
theorem replicaSeeds_getD :
    ∀ (n : Nat) (s i : Nat), i < n → s < 4294967296 →
      (replicaSeeds n s).getD i 0 = (s + i) % 4294967296 := by
  intro n
  induction n with
  | zero => intro s i hi _; omega
  | succ n ih =>
    intro s i hi hs
    cases i with
    | zero =>
      simp [replicaSeeds, Nat.mod_eq_of_lt hs]
    | succ i =>
      have hlt : (s + 1) % 4294967296 < 4294967296 := Nat.mod_lt _ (by omega)
      have := ih ((s + 1) % 4294967296) i (by omega) hlt
      simp only [replicaSeeds, List.getD_cons_succ]
      rw [this, Nat.mod_add_mod]
      congr 1
      omega

-- Claim theorems ------------------------------------------------------

/-- C2: in the weekly loop, the current week is appended to the pending
week queue if and only if the current date precedes the end date and
either seasonality is disabled or the current month is at most 9
(main.cpp lines 542-545). -/
theorem sod_C2 (ss : Bool) (dd_start dd_end : Date) :
    pushWeek ss dd_start dd_end = true
      ↔ (Date.lt dd_start dd_end = true
          ∧ (ss = false ∨ dd_start.month ≤ 9)) := by
  unfold pushWeek
  cases hlt : Date.lt dd_start dd_end
  · simp [hlt]
  · cases ss <;> simp

/-- C3 (code evaluated at the failing situation): with a per-week scalar
weather list, a week index at or past the end of the list is not
detected; the read has no value (an out-of-bounds vector access in the
code) and no fatal-error path exists (main.cpp lines 573-576). -/
theorem sod_C3_bug (l : List Int) (v : Int) (k : Nat)
    (hne : l ≠ []) (hk : l.length ≤ k) :
    weeklyWeather false l v k = none := by
  unfold weeklyWeather
  have hemp : l.isEmpty = false := by
    cases l
    · exact absurd rfl hne
    · rfl
  rw [hemp]
  simp [List.getElem?_eq_none hk]

/-- Witness for sod_C3_bug at the one-entry list and week index 1. -/
theorem sod_C3_bug_witness : weeklyWeather false [(5 : Int)] 0 1 = none :=
  sod_C3_bug [(5 : Int)] 0 1 (by decide) (by decide)

/-- C4 (code evaluated at the failing input): two grids of equal width
but different heights pass the dimension guard undetected, because the
guard compares img2's height with itself, and the initialization
proceeds to produce a combined grid (main.cpp lines 46-55). -/
theorem sod_C4_bug :
    imgA.height ≠ imgB.height
      ∧ dimMismatch imgA imgB = false
      ∧ (init_infected imgA imgB).height = 2
      ∧ (init_infected imgA imgB).cells 1 0 = 2 := by
  refine ⟨by decide, by decide, rfl, by decide⟩

/-- C7: when the radial family is the two-component Cauchy mixture and
the second scale or the mixture weight is missing, option processing
fails with a fatal error naming the missing option, and the simulation
skeleton yields that error rather than any simulation result
(main.cpp lines 414-430). -/
theorem sod_C7 (rtype : Rtype) (scale_2_ans gamma_ans : Option String)
    (hmix : rtype = Rtype.CAUCHY_MIX)
    (hmiss : scale_2_ans = none ∨ gamma_ans = none) :
    validateMixture rtype scale_2_ans gamma_ans
        = Except.error
            (if scale_2_ans = none then
              "The option scale_2 is required for radial_type=cauchy_mix"
            else
              "The option gamma is required for radial_type=cauchy_mix")
      ∧ ∀ (α : Type) (simulate : Unit → α),
          setupThenSimulate rtype scale_2_ans gamma_ans simulate
            = Except.error
                (if scale_2_ans = none then
                  "The option scale_2 is required for radial_type=cauchy_mix"
                else
                  "The option gamma is required for radial_type=cauchy_mix") := by
  subst hmix
  have hval : validateMixture Rtype.CAUCHY_MIX scale_2_ans gamma_ans
      = Except.error
          (if scale_2_ans = none then
            "The option scale_2 is required for radial_type=cauchy_mix"
          else
            "The option gamma is required for radial_type=cauchy_mix") := by
    cases scale_2_ans with
    | none => simp [validateMixture]
    | some s =>
      cases gamma_ans with
      | none => simp [validateMixture]
      | some t =>
        rcases hmiss with h | h <;> simp at h
  refine ⟨hval, fun α simulate => ?_⟩
  unfold setupThenSimulate
  rw [hval]

/-- Witness for sod_C7: mixture family with scale_2 absent. -/
theorem sod_C7_witness :
    validateMixture Rtype.CAUCHY_MIX none (some "0.5")
      = Except.error
          "The option scale_2 is required for radial_type=cauchy_mix" := by
  have h := (sod_C7 Rtype.CAUCHY_MIX none (some "0.5") rfl (Or.inl rfl)).1
  simpa using h

/-- C8: the mean aggregation writes only the ensemble accumulator and
the stddev step writes nothing at all: every replica's susceptible and
infected grid vectors, for both host species, are unchanged
(main.cpp lines 588-612 and 619-636). -/
theorem sod_C8 (st : EnsembleState) (num_runs : Nat) :
    (aggregateMean st num_runs).sus_umca_rasts = st.sus_umca_rasts
      ∧ (aggregateMean st num_runs).sus_oaks_rasts = st.sus_oaks_rasts
      ∧ (aggregateMean st num_runs).inf_umca_rasts = st.inf_umca_rasts
      ∧ (aggregateMean st num_runs).inf_oaks_rasts = st.inf_oaks_rasts
      ∧ (aggregateStddev (aggregateMean st num_runs) num_runs).1
          = aggregateMean st num_runs :=
  ⟨rfl, rfl, rfl, rfl, rfl⟩

/-- C9: the early-termination predicate is evaluated against the one
susceptible-oak grid assigned at setup, so its value never changes: the
weekly loop breaks early if and only if that grid has no positive cell,
and in that case it breaks in the very first week (week 0)
(main.cpp lines 140-150, 469, 547-551). -/
theorem sod_C9 (g : Img) (fuel : Nat) :
    (all_infected g = true
        ↔ ∀ j, j < g.height → ∀ k, k < g.width → ¬ 0 < g.cells j k)
      ∧ (0 < fuel →
          (earlyExitWeek g fuel 0 = some 0 ↔ all_infected g = true))
      ∧ (all_infected g = false → ∀ w, earlyExitWeek g fuel w = none) := by
  refine ⟨all_infected_iff g, ?_, fun hg w => earlyExitWeek_none g hg fuel w⟩
  intro hfuel
  cases fuel with
  | zero => omega
  | succ n =>
    cases hg : all_infected g with
    | false =>
      constructor
      · intro hsome
        rw [earlyExitWeek_none g hg (Nat.succ n) 0] at hsome
        exact absurd hsome (by simp)
      · intro h
        exact absurd h (by simp [hg])
    | true =>
      constructor
      · intro _; rfl
      · intro _
        unfold earlyExitWeek
        rw [hg]
        simp

/-- Witness for sod_C9: on an all-zero 1 by 1 grid the loop breaks in
week 0; on a grid with a positive cell it never breaks early. -/
theorem sod_C9_witness :
    earlyExitWeek cexG0 5 0 = some 0 ∧ earlyExitWeek cexG1 5 3 = none :=
  ⟨((sod_C9 cexG0 5).2.1 (by decide)).mpr (by decide),
   (sod_C9 cexG1 5).2.2 (by decide) 3⟩

/-- C5 as amended: the stddev output at each cell is the integer square
root of the truncated quotient of the sum of squared deviations by the
replica count: the output o is the unique integer with o^2 at most the
quotient and the quotient below (o+1)^2; both the quotient and the
square root are computed with truncation, so the output is not the real
population standard deviation (main.cpp lines 627-636). -/
theorem sod_C5_amended (meanG : Img) (gs : List Img) (n : Nat)
    (i j : Nat) (hn : 1 ≤ n) :
    0 ≤ (stddevGrid meanG gs n).cells i j
      ∧ ((stddevGrid meanG gs n).cells i j) ^ 2
          ≤ Int.tdiv (sumSqDev meanG gs i j) (n : Int)
      ∧ Int.tdiv (sumSqDev meanG gs i j) (n : Int)
          < ((stddevGrid meanG gs n).cells i j + 1) ^ 2 := by
  have hS : 0 ≤ sumSqDev meanG gs i j := sumSqDev_nonneg meanG gs i j
  have hq : 0 ≤ Int.tdiv (sumSqDev meanG gs i j) (n : Int) :=
    Int.tdiv_nonneg hS (by positivity)
  rw [stddevGrid_cells]
  refine ⟨by positivity, ?_, ?_⟩
  · have h := Nat.sqrt_le' (Int.tdiv (sumSqDev meanG gs i j) (n : Int)).toNat
    have hcast : ((Nat.sqrt (Int.tdiv (sumSqDev meanG gs i j) (n : Int)).toNat ^ 2 : Nat) : Int)
        ≤ (((Int.tdiv (sumSqDev meanG gs i j) (n : Int)).toNat : Nat) : Int) := by
      exact_mod_cast h
    rw [Int.toNat_of_nonneg hq] at hcast
    push_cast at hcast
    exact hcast
  · have h := Nat.lt_succ_sqrt' (Int.tdiv (sumSqDev meanG gs i j) (n : Int)).toNat
    have hcast : (((Int.tdiv (sumSqDev meanG gs i j) (n : Int)).toNat : Nat) : Int)
        < ((Nat.sqrt (Int.tdiv (sumSqDev meanG gs i j) (n : Int)).toNat).succ ^ 2 : Nat) := by
      exact_mod_cast h
    rw [Int.toNat_of_nonneg hq] at hcast
    push_cast at hcast
    exact hcast

/-- Witness for sod_C5_amended at two concrete 1 by 1 replica grids. -/
theorem sod_C5_amended_witness :
    0 ≤ (stddevGrid cexMean [cexG0, cexG1] 2).cells 0 0
      ∧ ((stddevGrid cexMean [cexG0, cexG1] 2).cells 0 0) ^ 2
          ≤ Int.tdiv (sumSqDev cexMean [cexG0, cexG1] 0 0) ((2 : Nat) : Int)
      ∧ Int.tdiv (sumSqDev cexMean [cexG0, cexG1] 0 0) ((2 : Nat) : Int)
          < ((stddevGrid cexMean [cexG0, cexG1] 2).cells 0 0 + 1) ^ 2 :=
  sod_C5_amended cexMean [cexG0, cexG1] 2 0 0 (by decide)

/-- C5 counterexample: for the replicas holding 0 and 1 at the single
cell, with the code's own mean grid (value 0), the code outputs 0 at
that cell while the population standard deviation is sqrt(1/2), so the
output does not equal the population standard deviation. -/
theorem sod_C5_cex :
    (((stddevGrid cexMean [cexG0, cexG1] 2).cells 0 0 : Int) : ℝ)
      ≠ Real.sqrt
          (((((cexG0.cells 0 0 : Int) : ℝ) - ((cexMean.cells 0 0 : Int) : ℝ)) ^ 2
            + (((cexG1.cells 0 0 : Int) : ℝ) - ((cexMean.cells 0 0 : Int) : ℝ)) ^ 2)
            / 2) := by
  have h0 : (stddevGrid cexMean [cexG0, cexG1] 2).cells 0 0 = 0 := by decide
  have h1 : cexG0.cells 0 0 = 0 := by decide
  have h2 : cexG1.cells 0 0 = 1 := by decide
  have h3 : cexMean.cells 0 0 = 0 := by decide
  rw [h0, h1, h2, h3]
  have harg : ((((0 : Int) : ℝ) - ((0 : Int) : ℝ)) ^ 2
      + ((((1 : Int) : ℝ)) - ((0 : Int) : ℝ)) ^ 2) / 2 = 1 / 2 := by
    push_cast
    ring
  rw [harg]
  have hpos : (0 : ℝ) < Real.sqrt (1 / 2) := Real.sqrt_pos.mpr (by norm_num)
  push_cast
  intro heq
  rw [← heq] at hpos
  exact lt_irrefl 0 hpos

/-- C6: when all replicas hold the same grid, the aggregated mean cell
equals that grid's cell exactly and the aggregated stddev cell is zero
(main.cpp lines 619-625 and 627-636). -/
theorem sod_C6 (base g : Img) (n : Nat) (hn : 1 ≤ n) (i j : Nat) :
    (meanGrid base (List.replicate n g) n).cells i j = g.cells i j
      ∧ (stddevGrid (meanGrid base (List.replicate n g) n)
          (List.replicate n g) n).cells i j = 0 := by
  have hne : ((n : Nat) : Int) ≠ 0 := by
    have : 0 < n := hn
    exact_mod_cast this.ne'
  have hmean : (meanGrid base (List.replicate n g) n).cells i j = g.cells i j := by
    rw [meanGrid_cells, sumCells_replicate]
    exact Int.mul_tdiv_cancel_left _ hne
  refine ⟨hmean, ?_⟩
  rw [stddevGrid_cells, sumSqDev_replicate, hmean]
  simp [Int.zero_tdiv]

/-- Witness for sod_C6 with two identical 1 by 1 replicas. -/
theorem sod_C6_witness :
    (meanGrid cexG0 (List.replicate 2 cexG1) 2).cells 0 0 = cexG1.cells 0 0
      ∧ (stddevGrid (meanGrid cexG0 (List.replicate 2 cexG1) 2)
          (List.replicate 2 cexG1) 2).cells 0 0 = 0 :=
  sod_C6 cexG0 cexG1 2 (by decide) 0 0

/-- C10: with equal input dimensions and non-negative counts, the
initial infected canopy-host cell is 0 where the infected-oak count is
0; where the infected-oak count is positive it is the minimum of the
canopy count and twice the infected-oak count when the canopy count
exceeds the infected-oak count, and the canopy count otherwise; hence
it never exceeds the canopy count and the derived susceptible canopy
grid is non-negative (main.cpp lines 46-75 and 472-475). -/
theorem sod_C10 (img1 img2 : Img)
    (hw : img1.width = img2.width) (_hh : img1.height = img2.height)
    (h1 : ∀ i j, 0 ≤ img1.cells i j) (h2 : ∀ i j, 0 ≤ img2.cells i j)
    (i j : Nat) :
    (img2.cells i j = 0 → (init_infected img1 img2).cells i j = 0)
      ∧ (0 < img2.cells i j →
          (img2.cells i j < img1.cells i j →
            (init_infected img1 img2).cells i j
              = min (img1.cells i j) (2 * img2.cells i j))
          ∧ (¬ img2.cells i j < img1.cells i j →
              (init_infected img1 img2).cells i j = img1.cells i j))
      ∧ (init_infected img1 img2).cells i j ≤ img1.cells i j
      ∧ 0 ≤ img1.cells i j - (init_infected img1 img2).cells i j := by
  have ha := h1 i j
  have hb := h2 i j
  have hdm : dimMismatch img1 img2 = false := by
    simp [dimMismatch, hw]
  have hcells : (init_infected img1 img2).cells i j
      = (if img2.cells i j > 0 then
          if img1.cells i j > img2.cells i j then
            if img1.cells i j < img2.cells i j * 2 then img1.cells i j
            else img2.cells i j * 2
          else img1.cells i j
        else 0) := by
    unfold init_infected
    rw [hdm]
    simp
  rw [hcells]
  refine ⟨?_, ?_, ?_, ?_⟩
  · intro h0
    split_ifs <;> omega
  · intro hpos
    constructor
    · intro hgt
      rw [min_def]
      split_ifs <;> omega
    · intro hng
      split_ifs <;> omega
  · split_ifs <;> omega
  · split_ifs <;> omega

/-- Witness for sod_C10 at concrete 1 by 1 grids holding 5 and 2. -/
theorem sod_C10_witness :
    (init_infected wit1 wit2).cells 0 0
      = min (wit1.cells 0 0) (2 * wit2.cells 0 0) :=
  ((sod_C10 wit1 wit2 rfl rfl
      (fun _ _ => show (0 : Int) ≤ 5 by decide)
      (fun _ _ => show (0 : Int) ≤ 2 by decide)
      0 0).2.1 (by decide)).1 (by decide)

/-- C1 (code evaluated at a failing configuration): the weekly batch
writes the shared weather_value inside the omp parallel for (main.cpp
line 575, variable declared at line 487), so with a per-week weather
list and more than one thread the result depends on the interleaving:
schedSeq and schedRace are both valid interleavings of the two runs'
action sequences over queued weeks [0, 1] with weather list [10, 20],
yet they produce different final replica grids ([30, 30] against
[30, 40]), hence different mean and stddev outputs; executions of the
same configuration are therefore not bit-identical. -/
theorem sod_C1_bug :
    IsInterleaving schedSeq (runProgram 0 [0, 1]) (runProgram 1 [0, 1])
      ∧ IsInterleaving schedRace (runProgram 0 [0, 1]) (runProgram 1 [0, 1])
      ∧ (runBatchSched (0 : Int) [10, 20] (fun _ wv g => g + wv)
          ⟨0, [0, 0]⟩ schedSeq).grids = [30, 30]
      ∧ (runBatchSched (0 : Int) [10, 20] (fun _ wv g => g + wv)
          ⟨0, [0, 0]⟩ schedRace).grids = [30, 40] := by
  unfold IsInterleaving
  decide
